import Mathlib

/-!
Shallow embedding of the Kalina-io conversational-turn orchestrator
(src/hooks/useChatHandler.ts and its callers) and proofs about its
documented behaviour.

Conventions:
* TS `string` is Lean `String`; optional TS fields become `Option` or a
  `Bool` defaulting to `false` (absent and `false` are indistinguishable
  to the JS truthiness tests the code performs).
* The JS whitespace class is modelled on its ASCII portion, which covers
  every character the orchestrator manipulates.
* Message-list mutations (`updateConversationMessages` updater functions)
  become pure functions `List ChatMessage → List ChatMessage`.
-/

namespace Kalina

/-- ASCII portion of the JS whitespace class `\s` (also used by
`String.prototype.trim`): space, tab, LF, VT, FF, CR. -/
def isJsSpace (c : Char) : Bool :=
  c.toNat = 32 || c.toNat = 9 || c.toNat = 10 || c.toNat = 11 || c.toNat = 12 || c.toNat = 13

/-- Trim on a character list: drop JS whitespace from both ends. -/
def jsTrimList (l : List Char) : List Char :=
  ((l.dropWhile isJsSpace).reverse.dropWhile isJsSpace).reverse

/-- JS `String.prototype.trim`. -/
def jsTrim (s : String) : String :=
  (jsTrimList s.toList).asString

/-- Message roles used by the chat handler. -/
inductive Role where
  | user
  | model
deriving DecidableEq, Repr

/-- An inline image attachment (`{ base64, mimeType }`). -/
structure ImageData where
  base64 : String
  mimeType : String
deriving DecidableEq, Repr

/-- A file attachment (`{ base64, mimeType, name, size }`). -/
structure FileData where
  base64 : String
  mimeType : String
  fileName : String
  size : Nat
deriving DecidableEq, Repr

/-- A `ChatMessage` record as used by `useChatHandler`.  Transient fields
(`isPlanning`, `toolInUse`, `isAnalyzingImage`, `isAnalyzingFile`,
`isLongToolUse`, `thoughts`, `searchPlan`) exist only while a turn is in
flight.  A TS field that is absent is modelled by its default value. -/
structure ChatMessage where
  id : Nat
  role : Role
  content : String := ""
  images : Option (List ImageData) := none
  file : Option FileData := none
  url : Option String := none
  isPlanning : Bool := false
  toolInUse : Option String := none
  isAnalyzingImage : Bool := false
  isAnalyzingFile : Bool := false
  isLongToolUse : Bool := false
  isMoleculeRequest : Bool := false
  thoughts : Option (List String) := none
  searchPlan : Option (List String) := none
  thinkingDuration : Option Nat := none
  analysisCompleted : Bool := false
  inputTokens : Option Nat := none
  outputTokens : Option Nat := none
  systemTokens : Option Nat := none
  generationTime : Option Nat := none
  memoryUpdated : Bool := false
deriving DecidableEq, Repr

/-- The structured intent produced by the planner (`planResponse`). -/
structure Plan where
  needsWebSearch : Bool := false
  isUrlReadRequest : Bool := false
  isCreatorRequest : Bool := false
  isCapabilitiesRequest : Bool := false
  isMoleculeRequest : Bool := false
  moleculeName : Option String := none
  needsThinking : Bool := false
  needsCodeContext : Bool := false
  thoughts : List String := []
  searchPlan : List String := []
deriving DecidableEq, Repr

/-- Manual tool selection (`selectedTool`); `smart` is the app's
no-override default. -/
inductive Tool where
  | smart
  | webSearch
  | urlReader
  | thinking
  | chemistry
deriving DecidableEq, Repr

/-- A request part: either text or inline data. -/
inductive Part where
  | text (s : String)
  | inlineData (base64 mimeType : String)
deriving DecidableEq, Repr

/-- One entry of the history handed to the model (`Content`). -/
structure HistoryEntry where
  role : Role
  parts : List Part
deriving DecidableEq, Repr

/-- First filter of `transformMessagesToHistory`:
`msgs.filter(m => !(m.role === 'model' && !m.content?.trim() && !m.images))`. -/
def keepInHistory (m : ChatMessage) : Bool :=
  !(m.role == Role.model && jsTrim m.content == "" && m.images.isNone)

/-- The parts built for one message: a text part when `msg.content` is a
non-empty string, one inline part per image, one inline part for the
file. -/
def messageParts (m : ChatMessage) : List Part :=
  (if m.content ≠ "" then [Part.text m.content] else [])
    ++ (match m.images with
        | some imgs => imgs.map (fun im => Part.inlineData im.base64 im.mimeType)
        | none => [])
    ++ (match m.file with
        | some f => [Part.inlineData f.base64 f.mimeType]
        | none => [])

/-- Function `transformMessagesToHistory` from src/hooks/useChatHandler.ts (lines
25-45): drop blank model messages, map each message to a history entry,
then drop entries with zero parts. -/
def transformMessagesToHistory (msgs : List ChatMessage) : List HistoryEntry :=
  ((msgs.filter keepInHistory).map (fun m => HistoryEntry.mk m.role (messageParts m))).filter
    (fun e => e.parts.length > 0)

/-- Function `estimateTokens` (lines 48-51): `Math.ceil(text.length / 4)` with `0`
for the empty string. -/
def estimateTokens (text : String) : Nat :=
  if text = "" then 0 else (text.length + 3) / 4

/-- The entry guard of `handleSendMessage` (line 156):
`(!fullPrompt.trim() && !images && !file && !url) || isLoading || !apiKey`. -/
def sendGuardRejects (prompt : String) (images : Option (List ImageData)) (file : Option FileData)
    (url : Option String) (isLoading : Bool) (apiKey : Option String) : Bool :=
  (jsTrim prompt == "" && images.isNone && file.isNone && url.isNone) || isLoading || apiKey.isNone

/-- The user message appended at turn start (line 198). -/
def mkUserMessage (uid : Nat) (prompt : String) (images : Option (List ImageData))
    (file : Option FileData) (url : Option String) : ChatMessage :=
  { id := uid, role := Role.user, content := prompt, images := images, file := file, url := url }

/-- The stub model message appended in planning state (line 195). -/
def mkPlanningMessage (pid : Nat) : ChatMessage :=
  { id := pid, role := Role.model, content := "", isPlanning := true }

/-- Lines 197-202: on a retry only the planning stub is appended, otherwise
the user message and the stub. -/
def appendTurnStart (msgs : List ChatMessage) (userMsg stub : ChatMessage) (isRetry : Bool) :
    List ChatMessage :=
  if isRetry then msgs ++ [stub] else msgs ++ [userMsg, stub]

/-- Observable effects of the opening of `handleSendMessage`: the message
list after the initial appends, whether the elapsed-time ticker was
started, and whether the planner was invoked. -/
structure SendStart where
  messages : List ChatMessage
  timerStarted : Bool
  planningCalled : Bool
deriving DecidableEq, Repr

/-- The opening of `handleSendMessage` (lines 154-209): if the entry guard
rejects, the function returns before touching the conversation, starting
any timer, or making any network call; otherwise it appends the turn's
messages, starts the elapsed-time ticker and calls the planner. -/
def handleSendMessageStart (msgs : List ChatMessage) (prompt : String)
    (images : Option (List ImageData)) (file : Option FileData) (url : Option String)
    (isLoading : Bool) (apiKey : Option String) (isRetry : Bool) (uid pid : Nat) : SendStart :=
  if sendGuardRejects prompt images file url isLoading apiKey then
    { messages := msgs, timerStarted := false, planningCalled := false }
  else
    { messages := appendTurnStart msgs (mkUserMessage uid prompt images file url)
        (mkPlanningMessage pid) isRetry,
      timerStarted := true, planningCalled := true }

/-- Usage metadata delivered by the stream
(`{ promptTokenCount?, candidatesTokenCount? }`). -/
structure Usage where
  promptTokenCount : Option Nat := none
  candidatesTokenCount : Option Nat := none
deriving DecidableEq, Repr

/-- Line 490: a tool "was used" when the URL tool ran, an image or file was
analyzed, or web search was enabled. -/
def toolWasUsed (toolInUse : Option String) (isImageAnalysisRequest : Bool)
    (isFileAnalysisRequest : Bool) (isWebSearchEnabled : Bool) : Bool :=
  toolInUse.isSome || isImageAnalysisRequest || isFileAnalysisRequest || isWebSearchEnabled

/-- Lines 480-503: after the stream ends, if usage metadata was captured and
the turn was not cancelled, the last message (when it is a model message)
is annotated with displayed input/output/system token counts. -/
def annotateUsage (msgs : List ChatMessage) (usage : Option Usage) (cancelled : Bool)
    (toolUsed : Bool) (fullPrompt : String) : List ChatMessage :=
  match usage, cancelled with
  | some u, false =>
    match msgs.getLast? with
    | some last =>
      if last.role == Role.model then
        let totalPromptTokens := u.promptTokenCount.getD 0
        let userTextTokens := estimateTokens fullPrompt
        let displayInputTokens := if toolUsed then totalPromptTokens else userTextTokens
        let sysTokens : Int := if toolUsed then 0 else
          (totalPromptTokens : Int) - (userTextTokens : Int)
        msgs.dropLast ++ [{ last with
          inputTokens := some displayInputTokens,
          outputTokens := u.candidatesTokenCount,
          systemTokens := if sysTokens > 0 then some sysTokens.toNat else none }]
      else msgs
    | none => msgs
  | _, _ => msgs

/-- Line 242: `isImageAnalysisRequest = !!images && images.length > 0`. -/
def isImageAnalysisRequest (images : Option (List ImageData)) : Bool :=
  match images with
  | some l => l.length > 0
  | none => false

/-- Line 243: `isFileAnalysisRequest = !!file`. -/
def isFileAnalysisRequest (file : Option FileData) : Bool :=
  file.isSome

/-- The stop notice appended on cancellation. -/
def stopNotice : String := "*Response generation stopped.*"

/-- The destructuring in `handleCancelStream` (lines 117-129): strip every
transient animation field from a message. -/
def stripTransient (m : ChatMessage) : ChatMessage :=
  { m with isAnalyzingImage := false, isAnalyzingFile := false, isPlanning := false,
           toolInUse := none, isLongToolUse := false, thoughts := none, searchPlan := none }

/-- A message carries none of the transient fields stripped on
cancellation. -/
def transientFree (m : ChatMessage) : Bool :=
  !m.isAnalyzingImage && !m.isAnalyzingFile && !m.isPlanning && m.toolInUse.isNone &&
    !m.isLongToolUse && m.thoughts.isNone && m.searchPlan.isNone

/-- The message-list update performed by `handleCancelStream` (lines
114-150): strip transients everywhere, then settle the last message with
the stop notice (appending a fresh model message when the last message is
not a model message). -/
def handleCancelStream (msgs : List ChatMessage) (freshId : Nat) : List ChatMessage :=
  let cleaned := msgs.map stripTransient
  match cleaned.getLast? with
  | some last =>
    if last.role == Role.model then
      let newContent := if jsTrim last.content ≠ "" then
          jsTrim last.content ++ "\n\n" ++ stopNotice
        else stopNotice
      cleaned.dropLast ++ [{ last with content := newContent }]
    else cleaned ++ [{ id := freshId, role := Role.model, content := stopNotice }]
  | none => cleaned ++ [{ id := freshId, role := Role.model, content := stopNotice }]

/-- The mutable per-turn flags of `handleSendMessage` after the manual tool
override block (lines 226-240): `isThinkingEnabled`, `isWebSearchEnabled`
and the (mutated) plan flags `isUrlReadRequest` / `isMoleculeRequest`. -/
structure TurnFlags where
  thinkingEnabled : Bool
  webSearchEnabled : Bool
  urlReadRequest : Bool
  moleculeRequest : Bool
deriving DecidableEq, Repr

/-- Lines 226-240: initialise the flags from the plan, then apply the
manual tool override. -/
def applyToolOverrides (plan : Plan) (tool : Tool) : TurnFlags :=
  let base : TurnFlags :=
    { thinkingEnabled := plan.needsThinking, webSearchEnabled := plan.needsWebSearch,
      urlReadRequest := plan.isUrlReadRequest, moleculeRequest := plan.isMoleculeRequest }
  match tool with
  | Tool.urlReader =>
    { base with urlReadRequest := true, webSearchEnabled := false, thinkingEnabled := false }
  | Tool.thinking =>
    { base with thinkingEnabled := true, webSearchEnabled := false, urlReadRequest := false }
  | Tool.webSearch =>
    { base with webSearchEnabled := true, thinkingEnabled := false, urlReadRequest := false }
  | Tool.chemistry =>
    { base with moleculeRequest := true, webSearchEnabled := false, thinkingEnabled := false }
  | Tool.smart => base

/-- The effective `isThinkingEnabled` value that drives the thinking ticker
and the model call: the override result (lines 226-240), forced off when an
image attachment is present (line 248) and when a molecule lookup succeeds
(line 318).  A file attachment does not touch it (lines 256-260). -/
def effectiveThinking (plan : Plan) (tool : Tool) (hasImages : Bool) (hasFile : Bool)
    (moleculeSuccess : Bool) : Bool :=
  let flags := applyToolOverrides plan tool
  let afterImages := if hasImages then false else flags.thinkingEnabled
  let _ := hasFile
  if flags.moleculeRequest && moleculeSuccess then false else afterImages

/-- Line 296: the effective prompt built for a URL-read turn. -/
def urlPrompt (u content fullPrompt : String) : String :=
  "[URL: " ++ u ++ "]\n\n[EXTRACTED WEBPAGE CONTENT]:\n" ++ content ++
    "\n\n[USER QUESTION]:\n" ++ fullPrompt

/-- The effective prompt the spec's sentence claims
(`"[URL: <u>]\n\n[EXTRACTED CONTENT]:\n<content>\n\n[QUESTION]:\n<prompt>"`);
kept separate so it can be compared with the one the code builds. -/
def claimedUrlPrompt (u content fullPrompt : String) : String :=
  "[URL: " ++ u ++ "]\n\n[EXTRACTED CONTENT]:\n" ++ content ++
    "\n\n[QUESTION]:\n" ++ fullPrompt

/-- Outcome of the URL tool branch (lines 287-300). -/
inductive UrlRouteResult where
  | ok (finalPrompt : String) (toolInUse : Option String)
  | toolError (msg : String)
deriving DecidableEq, Repr

/-- Lines 287-300: when `plan.isUrlReadRequest` holds, a missing URL is a
terminal tool error (no fetch is attempted); otherwise the effective prompt
wraps the fetched, cleaned content.  `fetched` stands for the successful
result of `urlReaderService.fetchAndParseUrlContent url`. -/
def routeUrlTool (urlReadRequest : Bool) (url : Option String) (fetched : String)
    (fullPrompt : String) : UrlRouteResult :=
  if urlReadRequest then
    match url with
    | none => UrlRouteResult.toolError "No valid URL was provided for the URL Reader tool."
    | some u => UrlRouteResult.ok (urlPrompt u fetched fullPrompt) (some "url")
  else UrlRouteResult.ok fullPrompt none

/-- Pattern `[^\n]+` at the head of the input: fails on an empty input or a leading
newline, otherwise captures greedily up to the next newline. -/
def capNonNl (r : List Char) : Option (List Char) :=
  match r with
  | [] => none
  | c :: _ => if c = '\n' then none else some (r.takeWhile (fun d => d ≠ '\n'))

/-- Pattern `\s*([^\n]+)`: the greedy, backtracking whitespace run followed by the
capture group. -/
def wsStarCap : List Char → Option (List Char)
  | [] => none
  | c :: cs =>
    if isJsSpace c then
      match wsStarCap cs with
      | some g => some g
      | none => capNonNl (c :: cs)
    else capNonNl (c :: cs)

/-- The literal characters of `TITLE:`. -/
def titleLit : List Char := ['T', 'I', 'T', 'L', 'E', ':']

/-- The regex `^\s*TITLE:\s*([^\n]+)` of line 449: skip leading whitespace,
require the literal `TITLE:`, then `\s*([^\n]+)`.  Returns the capture
group. -/
def titleMatch (s : String) : Option String :=
  let l := s.toList.dropWhile isJsSpace
  if l.take 6 = titleLit then (wsStarCap (l.drop 6)).map List.asString
  else none

/-- The replacement `replace(/^\s*TITLE:\s*[^\n]*\n?/, '')` of lines 463 and
505: if the pattern matches at the start, remove the whole title line
(leading whitespace, the literal, the following whitespace run, the rest of
the line and one optional newline); otherwise return the string
unchanged. -/
def stripTitle (s : String) : String :=
  let rest := s.toList.dropWhile isJsSpace
  if rest.take 6 = titleLit then
    let r1 := (rest.drop 6).dropWhile isJsSpace
    let r2 := r1.dropWhile (fun d => d ≠ '\n')
    (match r2 with
     | '\n' :: t => t
     | _ => r2).asString
  else s

/-- Per-chunk title handling on the first turn (lines 446-464).  Input: the
accumulated stream text and the `titleExtracted` flag.  Output: the title
committed by this chunk (if any), the new `titleExtracted` flag, and the
display content written to the in-flight message. -/
def processTitleChunk (isFirstTurn : Bool) (titleExtracted : Bool) (acc : String) :
    Option String × Bool × String :=
  if !isFirstTurn then (none, titleExtracted, acc)
  else
    let step : Option String × Bool :=
      if !titleExtracted then
        match titleMatch acc with
        | some g =>
          if g ≠ "" then
            (some (jsTrim g), if acc.toList.contains '\n' then true else titleExtracted)
          else (none, titleExtracted)
        | none =>
          if acc.length > 50 && !(acc.startsWith "TITLE:") then (none, true)
          else (none, titleExtracted)
      else (none, titleExtracted)
    (step.1, step.2, stripTitle acc)

/-- Lines 512-516: walk the 20 most recent messages two at a time and keep
the `(user, model)` pairs. -/
def pairConvos : List ChatMessage → List (ChatMessage × ChatMessage)
  | u :: m :: rest =>
    if u.role == Role.user && m.role == Role.model then
      (u, m) :: pairConvos rest
    else pairConvos rest
  | _ => []

/-- JS `slice(-20)`: the last 20 elements of a list. -/
def lastN (n : Nat) (msgs : List ChatMessage) : List ChatMessage :=
  msgs.drop (msgs.length - n)

/-- Lines 507-526: the summarizer dispatch.  `captured` is the conversation
snapshot read from the `conversations` binding captured when the send
callback was created — the state BEFORE this turn's messages were appended
(the React closure is not refreshed mid-call).  Returns the `(user, model)`
pairs handed to `generateConvoSummaries` together with the starting serial
(`summaries?.length || 0`), or `none` when no summary request is made. -/
def summarizerDispatch (captured : List ChatMessage) (priorSummaryCount : Nat) :
    Option (List (ChatMessage × ChatMessage) × Nat) :=
  if captured.length > 0 && captured.length % 20 == 0 then
    let pairs := pairConvos (lastN 20 captured)
    if pairs.length > 0 then some (pairs, priorSummaryCount) else none
  else none

/-- The messages of a conversation after a normal, non-retry turn: the
pre-turn messages plus the new user message and the settled model
message. -/
def postTurnMessages (captured : List ChatMessage) (userMsg modelMsg : ChatMessage) :
    List ChatMessage :=
  captured ++ [userMsg, modelMsg]

/-- The backwards scan of `handleRetry` (part_002 lines 308-315): index of
the most recent model message. -/
def lastModelIndex : List ChatMessage → Option Nat
  | [] => none
  | m :: rest =>
    match lastModelIndex rest with
    | some i => some (i + 1)
    | none => if m.role == Role.model then some 0 else none

/-- The arguments `handleRetry` re-sends. -/
structure RetryArgs where
  prompt : String
  images : Option (List ImageData)
  file : Option FileData
  url : Option String
  isRetry : Bool
deriving DecidableEq, Repr

/-- Function `handleRetry` (part_002 lines 306-324): find the most recent model
message; when the message before it is a user message, truncate the list to
everything strictly before the model message and re-send that user
message's content and attachments with `isRetry = true`.  Returns `none`
when no resend happens. -/
def handleRetry (msgs : List ChatMessage) : Option (List ChatMessage × RetryArgs) :=
  match lastModelIndex msgs with
  | none => none
  | some i =>
    match i with
    | 0 => none
    | j + 1 =>
      match msgs.get? j with
      | some prevMsg =>
        if prevMsg.role == Role.user then
          some (msgs.take (j + 1),
            { prompt := prevMsg.content, images := prevMsg.images, file := prevMsg.file,
              url := prevMsg.url, isRetry := true })
        else none
      | none => none

/-- A message carries one of the four transient flags named by the spec's
invariant (`isPlanning`, `toolInUse`, `isAnalyzingImage`,
`isAnalyzingFile`). -/
def hasTransient4 (m : ChatMessage) : Bool :=
  m.isPlanning || m.toolInUse.isSome || m.isAnalyzingImage || m.isAnalyzingFile

/-- A message carries `isPlanning` or `toolInUse` (the transient flags the
code only ever puts on the in-flight model message). -/
def hasPT (m : ChatMessage) : Bool :=
  m.isPlanning || m.toolInUse.isSome

/-- Replace the last element of a list (the
`newMessages[newMessages.length - 1] = ...` / map-on-last-index idiom). -/
def updateLast (f : ChatMessage → ChatMessage) : List ChatMessage → List ChatMessage
  | [] => []
  | [m] => [f m]
  | m :: m2 :: rest => m :: updateLast f (m2 :: rest)

/-- Lines 251-253 and 257-259: mark the second-to-last message (by id) with
an analysis flag, `prev.map(m => m.id === prev[prev.length - 2]?.id ? f(m) : m)`.
When the list has fewer than two elements the indexed access yields
`undefined` and nothing matches. -/
def markSecondLastBy (f : ChatMessage → ChatMessage) (msgs : List ChatMessage) :
    List ChatMessage :=
  if msgs.length < 2 then msgs
  else
    match msgs.get? (msgs.length - 2) with
    | some target => msgs.map (fun m => if m.id = target.id then f m else m)
    | none => msgs

/-- Lines 287-292: the URL branch clears `isPlanning` on the last message
and marks it `toolInUse`. -/
def setLastToolInUse (t : String) (msgs : List ChatMessage) : List ChatMessage :=
  updateLast (fun m => { m with isPlanning := false, toolInUse := some t }) msgs

/-- Line 304: the molecule branch clears `isPlanning` on the last message
and marks it `isMoleculeRequest`. -/
def setLastMoleculeRequest (msgs : List ChatMessage) : List ChatMessage :=
  updateLast (fun m => { m with isPlanning := false, isMoleculeRequest := true }) msgs

/-- Lines 335-341: after the tool section, clear `isPlanning`/`toolInUse`
on the last message (when either is set) and attach the plan's thoughts. -/
def clearPlanningFlags (thoughts : List String) (msgs : List ChatMessage) : List ChatMessage :=
  match msgs.getLast? with
  | some last =>
    if last.isPlanning || last.toolInUse.isSome then
      updateLast (fun m => { m with isPlanning := false, toolInUse := none,
                                    thoughts := some thoughts }) msgs
    else msgs
  | none => msgs

/-- The inputs of one invocation of `handleSendMessage` that reaches the
pre-stream cleanup (no tool error, no cancellation). -/
structure TurnInput where
  msgs0 : List ChatMessage
  prompt : String
  images : Option (List ImageData) := none
  file : Option FileData := none
  url : Option String := none
  isRetry : Bool := false
  flags : TurnFlags
  thoughts : List String := []
  uid : Nat
  pid : Nat

/-- State after the initial appends (lines 195-202). -/
def turnState1 (t : TurnInput) : List ChatMessage :=
  appendTurnStart t.msgs0 (mkUserMessage t.uid t.prompt t.images t.file t.url)
    (mkPlanningMessage t.pid) t.isRetry

/-- State after the image-analysis mark (lines 247-254). -/
def turnState2 (t : TurnInput) : List ChatMessage :=
  if isImageAnalysisRequest t.images then
    markSecondLastBy (fun m => { m with isAnalyzingImage := true }) (turnState1 t)
  else turnState1 t

/-- State after the file-analysis mark (lines 256-260). -/
def turnState3 (t : TurnInput) : List ChatMessage :=
  if isFileAnalysisRequest t.file then
    markSecondLastBy (fun m => { m with isAnalyzingFile := true }) (turnState2 t)
  else turnState2 t

/-- State after the URL branch's flag update (lines 287-292). -/
def turnState4 (t : TurnInput) : List ChatMessage :=
  if t.flags.urlReadRequest then setLastToolInUse "url" (turnState3 t) else turnState3 t

/-- State after the molecule branch's flag update (line 304). -/
def turnState5 (t : TurnInput) : List ChatMessage :=
  if t.flags.moleculeRequest then setLastMoleculeRequest (turnState4 t) else turnState4 t

/-- State after the pre-stream cleanup (lines 335-341). -/
def turnState6 (t : TurnInput) : List ChatMessage :=
  clearPlanningFlags t.thoughts (turnState5 t)

/-- The successive conversation states produced by `handleSendMessage` from
the initial appends up to the cleanup that precedes streaming (lines
195-341): the pre-turn state followed by the six intermediate states. -/
def turnStatesPreStream (t : TurnInput) : List (List ChatMessage) :=
  [t.msgs0, turnState1 t, turnState2 t, turnState3 t, turnState4 t, turnState5 t, turnState6 t]

/-! ## Concrete example inputs used by witnesses and counterexamples -/

/-- A 400-character prompt (the spec's token-accounting example). -/
def promptEx : String := String.mk (List.replicate 400 'a')

/-- User message carrying the 400-character prompt. -/
def userMsgEx : ChatMessage := { id := 0, role := Role.user, content := promptEx }

/-- A settled model message. -/
def modelMsgEx : ChatMessage := { id := 1, role := Role.model, content := "resp" }

/-- A sample file attachment. -/
def fileEx : FileData := { base64 := "Zm9v", mimeType := "application/pdf",
                           fileName := "notes.pdf", size := 3 }

/-- A sample image attachment list. -/
def imagesEx : List ImageData := [{ base64 := "aW1n", mimeType := "image/png" }]

/-- A flag record with nothing enabled (planner returned all-false and the
manual tool is `smart`). -/
def noFlags : TurnFlags :=
  { thinkingEnabled := false, webSearchEnabled := false, urlReadRequest := false,
    moleculeRequest := false }

/-- A fresh turn sending an image with no manual tool. -/
def imageTurnEx : TurnInput :=
  { msgs0 := [], prompt := "look at this", images := some imagesEx, flags := noFlags,
    uid := 10, pid := 11 }

/-- A fresh turn sending a file with no manual tool. -/
def fileTurnEx : TurnInput :=
  { msgs0 := [], prompt := "read this", file := some fileEx, flags := noFlags,
    uid := 10, pid := 11 }

/-- Build `n` alternating (user, model) message pairs. -/
def altMsgs (n : Nat) : List ChatMessage :=
  ((List.range n).map (fun i =>
    [({ id := 2 * i, role := Role.user, content := "u" } : ChatMessage),
     ({ id := 2 * i + 1, role := Role.model, content := "m" } : ChatMessage)])).flatten

/-- The user message of the turn used in the summarizer counterexample. -/
def newUserEx : ChatMessage := { id := 100, role := Role.user, content := "question" }

/-- The settled model message of the turn used in the summarizer
counterexample. -/
def newModelEx : ChatMessage := { id := 101, role := Role.model, content := "answer" }

/-- A user message with empty content whose only attachment is a URL: it
survives the blank-model filter but produces zero parts. -/
def emptyUrlUserMsg : ChatMessage :=
  { id := 0, role := Role.user, content := "", url := some "https://a.com" }

/-- A plain user message used in the history witness. -/
def sampleUserMsg : ChatMessage := { id := 5, role := Role.user, content := "hi" }

/-- Messages in flight when the cancellation witness fires. -/
def cancelUserMsg : ChatMessage := { id := 0, role := Role.user, content := "hi" }

/-- The in-flight model message (with transient flags) of the cancellation
witness. -/
def cancelModelMsg : ChatMessage :=
  { id := 1, role := Role.model, content := "Hello", isPlanning := true,
    toolInUse := some "url", thoughts := some ["step"] }

/-- The user message re-sent by the retry witness. -/
def retryUserMsg : ChatMessage :=
  { id := 0, role := Role.user, content := "ask", url := some "https://q.example" }

/-- The model message dropped by the retry witness. -/
def retryModelMsg : ChatMessage := { id := 1, role := Role.model, content := "bad answer" }

/-! ## Helper lemmas -/

/-- Fusing `filter`, `map`, `filter` into a single `filterMap`. -/
theorem filter_map_filter_eq_filterMap {α β : Type} (p : α → Bool) (f : α → β) (q : β → Bool)
    (l : List α) :
    ((l.filter p).map f).filter q =
      l.filterMap (fun a => if p a && q (f a) then some (f a) else none) := by
  induction l with
  | nil => rfl
  | cons x xs ih =>
    by_cases hp : p x
    · by_cases hq : q (f x) <;> simp [hp, hq, ih]
    · simp [hp, ih]

/-- A list whose `dropLast` contains no `p`-element has at most one
`p`-element. -/
theorem filter_length_le_one_of_dropLast_clean {α : Type} (p : α → Bool) (l : List α)
    (h : ∀ m ∈ l.dropLast, p m = false) : (l.filter p).length ≤ 1 := by
  induction l using List.reverseRecOn with
  | nil => simp
  | append_singleton xs x _ =>
    rw [List.dropLast_concat] at h
    have hxs : xs.filter p = [] := by
      rw [List.filter_eq_nil_iff]
      intro a ha
      simp [h a ha]
    rw [List.filter_append, hxs]
    cases hpx : p x <;> simp [hpx]

/-- Function `updateLast` preserves everything but the last element. -/
theorem updateLast_dropLast (f : ChatMessage → ChatMessage) (l : List ChatMessage) :
    (updateLast f l).dropLast = l.dropLast := by
  induction l with
  | nil => rfl
  | cons x xs ih =>
    cases xs with
    | nil => rfl
    | cons y ys =>
      have hne : updateLast f (y :: ys) ≠ [] := by
        cases ys <;> simp [updateLast]
      rw [updateLast, List.dropLast_cons_of_ne_nil hne, List.dropLast_cons_of_ne_nil (by simp), ih]

/-- Function `markSecondLastBy` with a pointwise `hasPT`-preserving function keeps a
clean `dropLast` clean. -/
theorem markSecondLastBy_dropLast_clean (f : ChatMessage → ChatMessage) (l : List ChatMessage)
    (hf : ∀ m, hasPT (f m) = hasPT m) (h : ∀ m ∈ l.dropLast, hasPT m = false) :
    ∀ m ∈ (markSecondLastBy f l).dropLast, hasPT m = false := by
  intro m hm
  unfold markSecondLastBy at hm
  split at hm
  · exact h m hm
  · split at hm
    next target heq =>
      rw [← List.map_dropLast] at hm
      obtain ⟨x, hx, rfl⟩ := List.mem_map.mp hm
      by_cases hid : x.id = target.id
      · rw [if_pos hid, hf x]
        exact h x hx
      · rw [if_neg hid]
        exact h x hx
    next => exact h m hm

/-- Function `clearPlanningFlags` preserves everything but the last element. -/
theorem clearPlanningFlags_dropLast (thoughts : List String) (l : List ChatMessage) :
    (clearPlanningFlags thoughts l).dropLast = l.dropLast := by
  unfold clearPlanningFlags
  split
  · split
    · exact updateLast_dropLast _ _
    · rfl
  · rfl

/-- Index `lastModelIndex` is `none` exactly on model-free lists. -/
theorem lastModelIndex_eq_none_iff (l : List ChatMessage) :
    lastModelIndex l = none ↔ ∀ m ∈ l, m.role ≠ Role.model := by
  induction l with
  | nil => simp [lastModelIndex]
  | cons x xs ih =>
    unfold lastModelIndex
    cases hxs : lastModelIndex xs with
    | some i => simp [hxs, ih.symm]
    | none =>
      by_cases hx : x.role = Role.model <;> simp [hxs, hx, ← ih]

/-- Characterisation of `lastModelIndex`: the index of the last message
with the model role. -/
theorem lastModelIndex_eq_of (l : List ChatMessage) (i : Nat) (m : ChatMessage)
    (hget : l.get? i = some m) (hrole : m.role = Role.model)
    (hlast : ∀ j m', i < j → l.get? j = some m' → m'.role ≠ Role.model) :
    lastModelIndex l = some i := by
  induction l generalizing i with
  | nil => simp at hget
  | cons x xs ih =>
    cases i with
    | zero =>
      simp at hget
      subst hget
      have hrest : lastModelIndex xs = none := by
        rw [lastModelIndex_eq_none_iff]
        intro m' hm'
        obtain ⟨j, hj⟩ := List.get?_of_mem hm'
        exact hlast (j + 1) m' (Nat.succ_pos j) (by simpa using hj)
      unfold lastModelIndex
      rw [hrest]
      simp [hrole]
    | succ k =>
      have hget' : xs.get? k = some m := by simpa using hget
      have hlast' : ∀ j m', k < j → xs.get? j = some m' → m'.role ≠ Role.model := by
        intro j m' hj hgj
        exact hlast (j + 1) m' (by omega) (by simpa using hgj)
      have := ih k hget' hlast'
      unfold lastModelIndex
      rw [this]

/-- Function `estimateTokens` is `ceil(length / 4)` (the empty-string special case
coincides). -/
theorem estimateTokens_eq (s : String) : estimateTokens s = (s.length + 3) / 4 := by
  unfold estimateTokens
  split
  · subst_vars
    rfl
  · rfl

/-- Operation `getLast?` commutes with `map`. -/
theorem getLast?_map {α β : Type} (f : α → β) (l : List α) :
    (l.map f).getLast? = l.getLast?.map f := by
  induction l with
  | nil => rfl
  | cons x xs ih =>
    cases xs with
    | nil => rfl
    | cons y ys => simpa using ih

/-! ## Claim theorems -/

/-- C3: if a turn is already in flight (`isLoading`), or the prompt is
blank with no image, file or URL attachment, or no API key is configured,
`handleSendMessage` returns immediately as a no-op: no message is appended,
no timer started, no network call made. -/
theorem send_rejected_is_noop (msgs : List ChatMessage) (prompt : String)
    (images : Option (List ImageData)) (file : Option FileData) (url : Option String)
    (isLoading : Bool) (apiKey : Option String) (isRetry : Bool) (uid pid : Nat)
    (h : isLoading = true ∨ (jsTrim prompt = "" ∧ images = none ∧ file = none ∧ url = none) ∨
      apiKey = none) :
    handleSendMessageStart msgs prompt images file url isLoading apiKey isRetry uid pid =
      { messages := msgs, timerStarted := false, planningCalled := false } := by
  have hg : sendGuardRejects prompt images file url isLoading apiKey = true := by
    unfold sendGuardRejects
    rcases h with h | ⟨h1, h2, h3, h4⟩ | h <;> simp_all
  simp [handleSendMessageStart, hg]

/-- Witness for C3 at the concrete input `isLoading = true`. -/
theorem send_rejected_is_noop_witness :
    (true = true ∨ (jsTrim "hi" = "" ∧ (none : Option (List ImageData)) = none ∧
        (none : Option FileData) = none ∧ (none : Option String) = none) ∨
      (some "k" : Option String) = none) ∧
    handleSendMessageStart [] "hi" none none none true (some "k") false 0 1 =
      { messages := [], timerStarted := false, planningCalled := false } :=
  ⟨Or.inl rfl, send_rejected_is_noop [] "hi" none none none true (some "k") false 0 1 (Or.inl rfl)⟩

/-- C4: on normal completion with usage metadata, the settled message's
`inputTokens` is `totalPromptTokens` when a tool was used (URL tool, image
or file analysis, or web search) and `ceil(len(prompt)/4)` otherwise;
`outputTokens` is `candidatesTokenCount`; `systemTokens` is
`totalPromptTokens - ceil(len(prompt)/4)` when no tool was used and that
difference is positive, and is not surfaced otherwise. -/
theorem token_accounting_settlement (msgs : List ChatMessage) (last : ChatMessage) (u : Usage)
    (tIU : Option String) (img fil web : Bool) (fullPrompt : String)
    (hl : msgs.getLast? = some last) (hr : last.role = Role.model) :
    annotateUsage msgs (some u) false (toolWasUsed tIU img fil web) fullPrompt =
      msgs.dropLast ++ [{ last with
        inputTokens := some (if toolWasUsed tIU img fil web then u.promptTokenCount.getD 0
          else (fullPrompt.length + 3) / 4),
        outputTokens := u.candidatesTokenCount,
        systemTokens := if toolWasUsed tIU img fil web = false ∧
            (fullPrompt.length + 3) / 4 < u.promptTokenCount.getD 0
          then some (u.promptTokenCount.getD 0 - (fullPrompt.length + 3) / 4) else none }] := by
  have hsys :
      (if (if toolWasUsed tIU img fil web then (0 : Int)
          else ((u.promptTokenCount.getD 0 : Nat) : Int) -
            (((fullPrompt.length + 3) / 4 : Nat) : Int)) > 0
        then some (if toolWasUsed tIU img fil web then (0 : Int)
          else ((u.promptTokenCount.getD 0 : Nat) : Int) -
            (((fullPrompt.length + 3) / 4 : Nat) : Int)).toNat
        else none) =
      (if toolWasUsed tIU img fil web = false ∧
          (fullPrompt.length + 3) / 4 < u.promptTokenCount.getD 0
        then some (u.promptTokenCount.getD 0 - (fullPrompt.length + 3) / 4) else none) := by
    cases htool : toolWasUsed tIU img fil web <;> split_ifs <;> simp_all <;> omega
  simp only [annotateUsage, hl]
  split
  · rw [estimateTokens_eq, hsys]
  · next hfalse => exact absurd (by simp [hr]) hfalse

set_option maxRecDepth 8000 in
/-- Witness for C4: the spec's concrete example — no tool used, a
400-character prompt, `totalPromptTokens = 300`: the settled message shows
`inputTokens = 100`, `systemTokens = 200`. -/
theorem token_accounting_settlement_witness :
    ([userMsgEx, modelMsgEx].getLast? = some modelMsgEx ∧ modelMsgEx.role = Role.model) ∧
    annotateUsage [userMsgEx, modelMsgEx]
        (some { promptTokenCount := some 300, candidatesTokenCount := some 7 }) false
        (toolWasUsed none false false false) promptEx =
      [userMsgEx, { modelMsgEx with
        inputTokens := some 100,
        outputTokens := some 7,
        systemTokens := some 200 }] := by
  refine ⟨⟨rfl, rfl⟩, ?_⟩
  have h := token_accounting_settlement [userMsgEx, modelMsgEx] modelMsgEx
    { promptTokenCount := some 300, candidatesTokenCount := some 7 } none false false false
    promptEx rfl rfl
  exact h.trans (by decide)

/-- C7 counterexample: the code labels the URL prompt sections
`[EXTRACTED WEBPAGE CONTENT]` and `[USER QUESTION]`, not the
`[EXTRACTED CONTENT]` / `[QUESTION]` labels the claim states. -/
theorem url_prompt_counterexample :
    routeUrlTool true (some "https://example.com") "C" "P" =
      UrlRouteResult.ok (urlPrompt "https://example.com" "C" "P") (some "url") ∧
    urlPrompt "https://example.com" "C" "P" ≠ claimedUrlPrompt "https://example.com" "C" "P" :=
  ⟨rfl, by decide⟩

/-- C7 (amended): when `isUrlReadRequest` is set and a URL was supplied,
the effective prompt is exactly
`"[URL: " ++ u ++ "]\n\n[EXTRACTED WEBPAGE CONTENT]:\n" ++ content ++
"\n\n[USER QUESTION]:\n" ++ prompt`. -/
theorem url_prompt_format (urlRead : Bool) (url : Option String) (u fetched fullPrompt : String)
    (hread : urlRead = true) (hu : url = some u) :
    routeUrlTool urlRead url fetched fullPrompt =
      UrlRouteResult.ok ("[URL: " ++ u ++ "]\n\n[EXTRACTED WEBPAGE CONTENT]:\n" ++ fetched ++
        "\n\n[USER QUESTION]:\n" ++ fullPrompt) (some "url") := by
  subst hread hu
  rfl

/-- Witness for the amended C7 at concrete inputs. -/
theorem url_prompt_format_witness :
    (true = true ∧ (some "https://e.x" : Option String) = some "https://e.x") ∧
    routeUrlTool true (some "https://e.x") "body" "ask" =
      UrlRouteResult.ok
        "[URL: https://e.x]\n\n[EXTRACTED WEBPAGE CONTENT]:\nbody\n\n[USER QUESTION]:\nask"
        (some "url") := by
  refine ⟨⟨rfl, rfl⟩, ?_⟩
  have h := url_prompt_format true (some "https://e.x") "https://e.x" "body" "ask" rfl rfl
  exact h.trans (by decide)

/-- C6 counterexample: a turn with a file attachment, a planner that chose
thinking and no tool anywhere still runs with thinking enabled — a file
attachment does not force `needsThinking` off. -/
theorem thinking_off_counterexample :
    (applyToolOverrides { needsThinking := true } Tool.smart).urlReadRequest = false ∧
    (applyToolOverrides { needsThinking := true } Tool.smart).moleculeRequest = false ∧
    (applyToolOverrides { needsThinking := true } Tool.smart).webSearchEnabled = false ∧
    isFileAnalysisRequest (some fileEx) = true ∧
    effectiveThinking { needsThinking := true } Tool.smart false true false = true := by
  decide

/-- C6 (amended): thinking is forced off by a manual tool override
(`urlReader`, `webSearch`, `chemistry`), by an image attachment, or by a
successful molecule lookup — but not by a file attachment or by
planner-set `isUrlReadRequest`/`needsWebSearch` alone. -/
theorem thinking_forced_off (plan : Plan) (tool : Tool) (hasImages hasFile molSuccess : Bool)
    (h : tool = Tool.urlReader ∨ tool = Tool.webSearch ∨ tool = Tool.chemistry ∨
      hasImages = true ∨
      ((applyToolOverrides plan tool).moleculeRequest = true ∧ molSuccess = true)) :
    effectiveThinking plan tool hasImages hasFile molSuccess = false := by
  unfold effectiveThinking
  rcases h with rfl | rfl | rfl | rfl | ⟨hm, rfl⟩
  · cases hasImages <;> simp [applyToolOverrides]
  · cases hasImages <;> simp [applyToolOverrides]
  · cases hasImages <;> simp [applyToolOverrides]
  · simp
  · simp [hm]

/-- Witness for the amended C6: manual web-search override with a
thinking-hungry plan still disables thinking. -/
theorem thinking_forced_off_witness :
    (Tool.webSearch = Tool.urlReader ∨ Tool.webSearch = Tool.webSearch ∨
      Tool.webSearch = Tool.chemistry ∨ false = true ∨
      ((applyToolOverrides { needsThinking := true } Tool.webSearch).moleculeRequest = true ∧
        false = true)) ∧
    effectiveThinking { needsThinking := true } Tool.webSearch false false false = false :=
  ⟨Or.inr (Or.inl rfl),
    thinking_forced_off { needsThinking := true } Tool.webSearch false false false
      (Or.inr (Or.inl rfl))⟩

/-- C10 counterexample: a user message with empty content and only a URL
attachment survives the blank-model filter yet yields no history entry, so
not every remaining message maps to an entry. -/
theorem history_drop_counterexample :
    ([emptyUrlUserMsg].filter keepInHistory = [emptyUrlUserMsg]) ∧
    transformMessagesToHistory [emptyUrlUserMsg] = [] := by
  decide

/-- C10 (amended): the history builder never emits an entry with zero
parts; blank model messages without images are dropped by the first
filter, and each remaining message contributes an entry with its role and
its parts exactly when those parts are non-empty (messages producing zero
parts are dropped as well). -/
theorem history_entries_characterized (msgs : List ChatMessage) :
    transformMessagesToHistory msgs =
      msgs.filterMap (fun m =>
        if keepInHistory m ∧ messageParts m ≠ []
        then some (HistoryEntry.mk m.role (messageParts m)) else none) ∧
    ∀ e ∈ transformMessagesToHistory msgs, e.parts ≠ [] := by
  constructor
  · induction msgs with
    | nil => rfl
    | cons x xs ih =>
      by_cases hk : keepInHistory x
      · by_cases hp : messageParts x = []
        · simp [transformMessagesToHistory, List.filter_cons, hk, hp] at ih ⊢
          exact ih
        · simp [transformMessagesToHistory, List.filter_cons, hk, hp,
            List.length_pos.mpr hp] at ih ⊢
          exact ih
      · simp [transformMessagesToHistory, List.filter_cons, hk] at ih ⊢
        exact ih
  · intro e he
    unfold transformMessagesToHistory at he
    have := (List.mem_filter.mp he).2
    simp at this
    exact List.ne_nil_of_length_pos this

/-- Witness for the amended C10: the entry produced for a plain user
message has non-empty parts. -/
theorem history_entries_characterized_witness :
    (HistoryEntry.mk Role.user [Part.text "hi"]).parts ≠ [] :=
  (history_entries_characterized [sampleUserMsg]).2 (HistoryEntry.mk Role.user [Part.text "hi"])
    (by decide)

/-- C5 counterexample: a turn that brings the conversation to 20 messages
(a positive multiple of 20 after the turn) does NOT request summaries,
because the dispatch counts the snapshot captured when the send began —
18 messages here. -/
theorem summarizer_trigger_counterexample :
    0 < (postTurnMessages (altMsgs 9) newUserEx newModelEx).length ∧
    (postTurnMessages (altMsgs 9) newUserEx newModelEx).length % 20 = 0 ∧
    summarizerDispatch (altMsgs 9) 0 = none := by
  decide

/-- C5 (amended): summaries are requested iff the captured pre-turn
snapshot has a positive multiple-of-20 message count and its most recent
20 messages contain at least one adjacent (user, model) pair at an even
offset; the request carries those pairs and a starting serial equal to the
prior summary count. -/
theorem summarizer_trigger (captured : List ChatMessage) (prior : Nat) :
    summarizerDispatch captured prior =
      if 0 < captured.length ∧ captured.length % 20 = 0 ∧ pairConvos (lastN 20 captured) ≠ []
      then some (pairConvos (lastN 20 captured), prior) else none := by
  unfold summarizerDispatch
  by_cases h1 : 0 < captured.length
  · by_cases h2 : captured.length % 20 = 0
    · by_cases h3 : pairConvos (lastN 20 captured) = []
      · simp [h1, h2, h3]
      · simp [h1, h2, h3, List.length_pos.mpr h3]
    · simp [h1, h2]
  · simp [h1, Nat.not_lt.mp h1]

/-- C2: cancelling a turn settles the in-flight model message to its
trimmed text followed by the stop notice (or to the bare stop notice when
no non-blank text streamed), and strips every transient field from the
messages. -/
theorem cancel_settles_message (msgs : List ChatMessage) (last : ChatMessage) (freshId : Nat)
    (hl : msgs.getLast? = some last) (hr : last.role = Role.model) :
    ((handleCancelStream msgs freshId).getLast?.map (fun m => m.content) =
      some (if jsTrim last.content = "" then "*Response generation stopped.*"
            else jsTrim last.content ++ "\n\n*Response generation stopped.*")) ∧
    ∀ m ∈ handleCancelStream msgs freshId, transientFree m = true := by
  have hclean : (msgs.map stripTransient).getLast? = some (stripTransient last) := by
    rw [getLast?_map, hl]
    rfl
  have hrole : ((stripTransient last).role == Role.model) = true := by
    simp [stripTransient, hr]
  constructor
  · simp only [handleCancelStream, hclean]
    rw [if_pos hrole, List.getLast?_concat]
    simp only [Option.map_some']
    by_cases hc : jsTrim last.content = ""
    · rw [if_pos hc]
      have hc' : jsTrim (stripTransient last).content = "" := hc
      simp only [hc', ne_eq, not_true_eq_false, if_false]
      rfl
    · rw [if_neg hc]
      have hne : jsTrim (stripTransient last).content ≠ "" := hc
      simp only [if_pos hne]
      show some (jsTrim last.content ++ "\n\n" ++ stopNotice) =
        some (jsTrim last.content ++ "\n\n*Response generation stopped.*")
      rw [String.append_assoc]
      rfl
  · intro m hm
    simp only [handleCancelStream, hclean] at hm
    rw [if_pos hrole] at hm
    rcases List.mem_append.mp hm with h | h
    · have h2 : m ∈ msgs.map stripTransient := List.dropLast_subset _ h
      obtain ⟨x, _, rfl⟩ := List.mem_map.mp h2
      rfl
    · rw [List.mem_singleton.mp h]
      rfl

/-- Witness for C2: cancelling while the in-flight message holds `"Hello"`
(and transient flags) settles it to
`"Hello\n\n*Response generation stopped.*"` with all transients gone. -/
theorem cancel_settles_message_witness :
    ([cancelUserMsg, cancelModelMsg].getLast? = some cancelModelMsg ∧
      cancelModelMsg.role = Role.model) ∧
    ((handleCancelStream [cancelUserMsg, cancelModelMsg] 99).getLast?.map (fun m => m.content) =
      some "Hello\n\n*Response generation stopped.*") ∧
    ∀ m ∈ handleCancelStream [cancelUserMsg, cancelModelMsg] 99, transientFree m = true := by
  refine ⟨⟨rfl, rfl⟩, ?_, ?_⟩
  · have h := (cancel_settles_message [cancelUserMsg, cancelModelMsg] cancelModelMsg 99 rfl rfl).1
    rw [h]
    decide
  · exact (cancel_settles_message [cancelUserMsg, cancelModelMsg] cancelModelMsg 99 rfl rfl).2

/-- C8: on a first turn, the accumulated text
`"TITLE: Trip Planning\nHere is..."` immediately commits the title
`"Trip Planning"`, marks extraction finished (a newline has appeared), and
displays `"Here is..."`; in general a successful match commits the trimmed
capture and a newline stops further extraction attempts; the displayed
content always has the `TITLE:` line stripped, and once extraction is
finished no further match is attempted. -/
theorem title_extraction_first_turn :
    processTitleChunk true false "TITLE: Trip Planning\nHere is..." =
      (some "Trip Planning", true, "Here is...") ∧
    (∀ acc g, titleMatch acc = some g → g ≠ "" → acc.toList.contains '\n' = true →
      (processTitleChunk true false acc).1 = some (jsTrim g) ∧
      (processTitleChunk true false acc).2.1 = true) ∧
    (∀ acc te, (processTitleChunk true te acc).2.2 = stripTitle acc) ∧
    (∀ acc, processTitleChunk true true acc = (none, true, stripTitle acc)) := by
  refine ⟨by decide, ?_, ?_, ?_⟩
  · intro acc g hm hg hn
    have hn' : '\n' ∈ acc.data := by
      simpa using hn
    constructor <;> simp [processTitleChunk, hm, hg, hn']
  · intro acc te
    cases te <;> rfl
  · intro acc
    rfl

/-- Witness for C8 at a concrete accumulated text. -/
theorem title_extraction_first_turn_witness :
    (titleMatch "TITLE: Plan\nBody" = some "Plan" ∧ ("Plan" : String) ≠ "" ∧
      "TITLE: Plan\nBody".toList.contains '\n' = true) ∧
    (processTitleChunk true false "TITLE: Plan\nBody").1 = some (jsTrim "Plan") ∧
    (processTitleChunk true false "TITLE: Plan\nBody").2.1 = true :=
  ⟨⟨by decide, by decide, by decide⟩,
    title_extraction_first_turn.2.1 "TITLE: Plan\nBody" "Plan" (by decide) (by decide) (by decide)⟩

/-- C9: when the most recent model message is preceded by a user message,
retrying truncates the list back to (and excluding) that model message and
re-sends the preceding user message's exact content, images, file and URL
with `isRetry = true`, so the subsequent send appends only the planning
stub and no duplicate user message. -/
theorem retry_truncates_and_resends (msgs : List ChatMessage) (i : Nat) (mm um : ChatMessage)
    (hm : msgs.get? (i + 1) = some mm) (hmr : mm.role = Role.model)
    (hlast : ∀ j m', i + 1 < j → msgs.get? j = some m' → m'.role ≠ Role.model)
    (hu : msgs.get? i = some um) (hur : um.role = Role.user)
    (apiKey : Option String) (uid pid : Nat)
    (hguard : sendGuardRejects um.content um.images um.file um.url false apiKey = false) :
    handleRetry msgs = some (msgs.take (i + 1),
      { prompt := um.content, images := um.images, file := um.file, url := um.url,
        isRetry := true }) ∧
    (handleSendMessageStart (msgs.take (i + 1)) um.content um.images um.file um.url false apiKey
        true uid pid).messages = msgs.take (i + 1) ++ [mkPlanningMessage pid] := by
  have hidx := lastModelIndex_eq_of msgs (i + 1) mm hm hmr hlast
  have hu' : msgs[i]? = some um := by
    simpa using hu
  constructor
  · simp [handleRetry, hidx, hu', hur]
  · simp [handleSendMessageStart, hguard, appendTurnStart]

/-- Witness for C9: retrying `[user, model]` drops the model answer and
re-sends the user message's content and URL with `isRetry = true`. -/
theorem retry_truncates_and_resends_witness :
    ([retryUserMsg, retryModelMsg].get? 1 = some retryModelMsg ∧
      retryModelMsg.role = Role.model ∧
      [retryUserMsg, retryModelMsg].get? 0 = some retryUserMsg ∧
      retryUserMsg.role = Role.user) ∧
    handleRetry [retryUserMsg, retryModelMsg] = some ([retryUserMsg],
      { prompt := retryUserMsg.content, images := retryUserMsg.images,
        file := retryUserMsg.file, url := retryUserMsg.url, isRetry := true }) ∧
    (handleSendMessageStart [retryUserMsg] retryUserMsg.content retryUserMsg.images
        retryUserMsg.file retryUserMsg.url false (some "k") true 7 8).messages =
      [retryUserMsg] ++ [mkPlanningMessage 8] := by
  refine ⟨⟨rfl, rfl, rfl, rfl⟩, ?_⟩
  have h := retry_truncates_and_resends [retryUserMsg, retryModelMsg] 0 retryModelMsg retryUserMsg
    rfl rfl ?_ rfl rfl (some "k") 7 8 (by decide)
  · exact h
  · intro j m' hj hget
    have : ([retryUserMsg, retryModelMsg]).get? j = none := by
      rw [List.get?_eq_none]
      simpa using hj
    rw [this] at hget
    cases hget

/-- C1 counterexample: on an image turn, right after the user message is
marked `isAnalyzingImage`, the planning stub still carries `isPlanning`, so
two messages simultaneously carry a transient flag among
`isPlanning`/`toolInUse`/`isAnalyzingImage`/`isAnalyzingFile`. -/
theorem transient_uniqueness_counterexample :
    ∃ s ∈ turnStatesPreStream imageTurnEx, ¬((s.filter hasTransient4).length ≤ 1) := by
  decide

/-- C1 (amended): at every state of a turn (given a pre-turn conversation
with no lingering `isPlanning`/`toolInUse`), at most one message carries a
flag among `isPlanning`/`toolInUse`; the analysis flags on the user message
may coexist with the stub's `isPlanning`. -/
theorem planning_tool_flag_unique (t : TurnInput)
    (h0 : ∀ m ∈ t.msgs0, hasPT m = false) :
    ∀ s ∈ turnStatesPreStream t, (s.filter hasPT).length ≤ 1 := by
  have d0 : ∀ m ∈ t.msgs0.dropLast, hasPT m = false := fun m hm =>
    h0 m (List.dropLast_subset _ hm)
  have d1 : ∀ m ∈ (turnState1 t).dropLast, hasPT m = false := by
    unfold turnState1 appendTurnStart
    by_cases hretry : t.isRetry
    · rw [if_pos hretry, List.dropLast_concat]
      exact h0
    · rw [if_neg hretry]
      have hsplit : t.msgs0 ++ [mkUserMessage t.uid t.prompt t.images t.file t.url,
          mkPlanningMessage t.pid] =
          (t.msgs0 ++ [mkUserMessage t.uid t.prompt t.images t.file t.url]) ++
            [mkPlanningMessage t.pid] := by
        simp
      rw [hsplit, List.dropLast_concat]
      intro m hm
      rcases List.mem_append.mp hm with h | h
      · exact h0 m h
      · rw [List.mem_singleton.mp h]
        rfl
  have d2 : ∀ m ∈ (turnState2 t).dropLast, hasPT m = false := by
    unfold turnState2
    split
    · exact markSecondLastBy_dropLast_clean _ _ (fun m => rfl) d1
    · exact d1
  have d3 : ∀ m ∈ (turnState3 t).dropLast, hasPT m = false := by
    unfold turnState3
    split
    · exact markSecondLastBy_dropLast_clean _ _ (fun m => rfl) d2
    · exact d2
  have d4 : ∀ m ∈ (turnState4 t).dropLast, hasPT m = false := by
    unfold turnState4 setLastToolInUse
    split
    · rw [updateLast_dropLast]
      exact d3
    · exact d3
  have d5 : ∀ m ∈ (turnState5 t).dropLast, hasPT m = false := by
    unfold turnState5 setLastMoleculeRequest
    split
    · rw [updateLast_dropLast]
      exact d4
    · exact d4
  have d6 : ∀ m ∈ (turnState6 t).dropLast, hasPT m = false := by
    unfold turnState6
    rw [clearPlanningFlags_dropLast]
    exact d5
  intro s hs
  apply filter_length_le_one_of_dropLast_clean
  simp only [turnStatesPreStream, List.mem_cons, List.not_mem_nil, or_false] at hs
  rcases hs with rfl | rfl | rfl | rfl | rfl | rfl | rfl
  · exact d0
  · exact d1
  · exact d2
  · exact d3
  · exact d4
  · exact d5
  · exact d6

/-- Witness for the amended C1: every state of a concrete file turn has at
most one `isPlanning`/`toolInUse` carrier. -/
theorem planning_tool_flag_unique_witness :
    (∀ m ∈ fileTurnEx.msgs0, hasPT m = false) ∧
    ∀ s ∈ turnStatesPreStream fileTurnEx, (s.filter hasPT).length ≤ 1 :=
  ⟨by decide, planning_tool_flag_unique fileTurnEx (by decide)⟩

end Kalina
